import Mathlib

/-!
Verification development for the cross-chain swap core of the repository:
a shallow embedding of `src/cross-chain/xbridgetransactiondescr.h`,
`src/cross-chain/ctransaction.h` and the `XBridge` network-runtime header,
with theorems checking the natural-language specification against it.

Modelling conventions: `boost::posix_time::ptime` timestamps are `Nat`
(seconds; the comparison on `ptime` is a total order, which is all the code
uses); `uint256` is `Nat`; byte vectors (`std::vector<unsigned char>`) are
`List Nat`; `std::string` is `String`; `boost::uint64_t` amounts are `Nat`;
C++ `int` is `Int` (no overflow arises in the properties checked);
`XBridgePacketPtr` (a shared pointer that is either null or holds a packet)
is `Option Nat`, the `Nat` standing for the packet's identity.  Calls to
`second_clock::universal_time()` are modelled by threading the current time
`now` as an explicit argument.  Pointer identity (`this == &d` in
`operator=`) is modelled by an explicit aliasing flag passed to `assign`.
-/

namespace MainChain

/-- The `State` enumeration of `XBridgeTransactionDescr`
(xbridgetransactiondescr.h lines 27-42), 13 constructors in source order. -/
inductive State where
  | trNew
  | trPending
  | trAccepting
  | trHold
  | trCreated
  | trSigned
  | trCommited
  | trFinished
  | trRollback
  | trDropped
  | trCancelled
  | trInvalid
  | trExpired
deriving DecidableEq, Repr

/-- The numeric value each enumerator has in the C++ `enum State`
(`trNew = 0`, the rest implicitly consecutive). -/
def State.toNat : State → Nat
  | .trNew => 0
  | .trPending => 1
  | .trAccepting => 2
  | .trHold => 3
  | .trCreated => 4
  | .trSigned => 5
  | .trCommited => 6
  | .trFinished => 7
  | .trRollback => 8
  | .trDropped => 9
  | .trCancelled => 10
  | .trInvalid => 11
  | .trExpired => 12

/-- The enumerators of `State` in the order they appear in the source. -/
def State.enumList : List State :=
  [.trNew, .trPending, .trAccepting, .trHold, .trCreated, .trSigned,
   .trCommited, .trFinished, .trRollback, .trDropped, .trCancelled,
   .trInvalid, .trExpired]

/-- `struct XBridgeTransactionDescr` (xbridgetransactiondescr.h lines 19-132).
The C++ field `from` is a reserved word in Lean and is rendered `fromAddr`;
`to` is rendered `toAddr` for symmetry. -/
structure XBridgeTransactionDescr where
  id : Nat
  hubAddress : List Nat
  myAddress : List Nat
  fromAddr : List Nat
  fromCurrency : String
  fromAmount : Nat
  toAddr : List Nat
  toCurrency : String
  toAmount : Nat
  state : State
  created : Nat
  txtime : Nat
  payTxId : Nat
  payTx : String
  revTx : String
  packet : Option Nat
deriving DecidableEq, Repr

namespace XBridgeTransactionDescr

/-- `MIN_TX_FEE = 100` (xbridgetransactiondescr.h line 23). -/
def MIN_TX_FEE : Nat := 100

/-- `COIN = 1000000` (xbridgetransactiondescr.h line 24). -/
def COIN : Nat := 1000000

/-- The default constructor (lines 67-71): `state` is initialised to `trNew`
and `created`/`txtime` to the current time.  `id` (a `uint256`) value-
initialises to zero, the vectors and strings default-construct empty, and
the shared pointer `packet` default-constructs null; the two POD amount
fields are left indeterminate, modelled as explicit parameters. -/
def construct (now fromAmount0 toAmount0 : Nat) : XBridgeTransactionDescr :=
  { id := 0
    hubAddress := []
    myAddress := []
    fromAddr := []
    fromCurrency := ""
    fromAmount := fromAmount0
    toAddr := []
    toCurrency := ""
    toAmount := toAmount0
    state := .trNew
    created := now
    txtime := now
    payTxId := 0
    payTx := ""
    revTx := ""
    packet := none }

/-- `copyFrom` (lines 110-131): assigns `id`, the two legs, `state`,
`payTx`, `revTx`, `payTxId`, `hubAddress` and `myAddress` from `d`,
refreshes `txtime` to the current time, and lowers `created` to `d.created`
when the latter is earlier.  The `packet` field does not appear in the
body and keeps its previous value. -/
def copyFrom (self d : XBridgeTransactionDescr) (now : Nat) :
    XBridgeTransactionDescr :=
  { self with
    id := d.id
    fromAddr := d.fromAddr
    fromCurrency := d.fromCurrency
    fromAmount := d.fromAmount
    toAddr := d.toAddr
    toCurrency := d.toCurrency
    toAmount := d.toAmount
    state := d.state
    payTx := d.payTx
    revTx := d.revTx
    txtime := now
    created := if self.created > d.created then d.created else self.created
    payTxId := d.payTxId
    hubAddress := d.hubAddress
    myAddress := d.myAddress }

/-- `operator=` (lines 88-98): when the source aliases the target
(`this == &d`) it returns immediately without touching any field,
otherwise it delegates to `copyFrom`.  The pointer comparison is modelled
by the explicit `selfAlias` flag. -/
def assign (self d : XBridgeTransactionDescr) (selfAlias : Bool)
    (now : Nat) : XBridgeTransactionDescr :=
  if selfAlias then self else copyFrom self d now

/-- `operator<` (lines 78-81): strictly by `created`. -/
def lt (a b : XBridgeTransactionDescr) : Bool :=
  decide (a.created < b.created)

/-- `operator>` (lines 83-86): strictly by `created`. -/
def gt (a b : XBridgeTransactionDescr) : Bool :=
  decide (a.created > b.created)

end XBridgeTransactionDescr

/-- `class XBridgeTransactionMember` (ctransaction.h embedded header,
lines 558-577). -/
structure XBridgeTransactionMember where
  m_id : Nat
  m_sourceAddr : List Nat
  m_destAddr : List Nat
  m_transactionHash : Nat
deriving DecidableEq, Repr

namespace XBridgeTransactionMember

/-- `isEmpty`: `m_sourceAddr.empty() || m_destAddr.empty()`. -/
def isEmpty (m : XBridgeTransactionMember) : Bool :=
  m.m_sourceAddr.isEmpty || m.m_destAddr.isEmpty

/-- `setSource(addr)`: overwrite the source address. -/
def setSource (m : XBridgeTransactionMember) (addr : List Nat) :
    XBridgeTransactionMember :=
  { m with m_sourceAddr := addr }

/-- `setDest(addr)`: overwrite the destination address. -/
def setDest (m : XBridgeTransactionMember) (addr : List Nat) :
    XBridgeTransactionMember :=
  { m with m_destAddr := addr }

/-- `source()` accessor. -/
def source (m : XBridgeTransactionMember) : List Nat := m.m_sourceAddr

/-- `dest()` accessor. -/
def dest (m : XBridgeTransactionMember) : List Nat := m.m_destAddr

end XBridgeTransactionMember

/-- `class COutPoint` (ctransaction.h lines 12-48).  `n` is a C++
`unsigned int`; `(unsigned int) -1` is `4294967295`. -/
structure COutPoint where
  hash : Nat
  n : Nat
deriving DecidableEq, Repr

namespace COutPoint

/-- `SetNull`: `hash = 0; n = (unsigned int) -1`. -/
def SetNull (_p : COutPoint) : COutPoint :=
  { hash := 0, n := 4294967295 }

/-- `IsNull`: `hash == 0 && n == (unsigned int) -1`. -/
def IsNull (p : COutPoint) : Bool :=
  p.hash == 0 && p.n == 4294967295

end COutPoint

/-- `class CTxIn` (ctransaction.h lines 50-124). -/
structure CTxIn where
  prevout : COutPoint
  scriptSig : List Nat
  nSequence : Nat
deriving DecidableEq, Repr

/-- `class CTxOut` (ctransaction.h lines 126-204). -/
structure CTxOut where
  nValue : Int
  scriptPubKey : List Nat
deriving DecidableEq, Repr

namespace CTxOut

/-- `IsEmpty`: `nValue == 0 && scriptPubKey.empty()`. -/
def IsEmpty (o : CTxOut) : Bool :=
  o.nValue == 0 && o.scriptPubKey.isEmpty

end CTxOut

/-- `class CBTCTransaction` (ctransaction.h lines 206-493). -/
structure CBTCTransaction where
  nVersion : Int
  nTime : Nat
  vin : List CTxIn
  vout : List CTxOut
  nLockTime : Nat
  nDoS : Int
deriving DecidableEq, Repr

namespace CBTCTransaction

/-- `static const int CURRENT_VERSION = 1` (line 209). -/
def CURRENT_VERSION : Int := 1

/-- `DoS(nDoSIn, fIn)` (line 219): adds `nDoSIn` to the mutable counter
`nDoS` and returns `fIn`.  Modelled as returning the updated transaction
together with the returned boolean. -/
def DoS (tx : CBTCTransaction) (nDoSIn : Int) (fIn : Bool) :
    CBTCTransaction × Bool :=
  ({ tx with nDoS := tx.nDoS + nDoSIn }, fIn)

/-- `SetNull` (lines 236-244): resets the version, stamps `nTime` with the
current time (`time(0)`, threaded as `now`), clears the input and output
vectors and the lock time, and zeroes the DoS counter. -/
def SetNull (_tx : CBTCTransaction) (now : Nat) : CBTCTransaction :=
  { nVersion := CURRENT_VERSION
    nTime := now
    vin := []
    vout := []
    nLockTime := 0
    nDoS := 0 }

/-- `IsCoinBase` (lines 302-305): exactly one input whose prevout is null,
and at least one output.  `vin[0]` is reached only after the size check
thanks to `&&` short-circuiting, modelled with `head?`. -/
def IsCoinBase (tx : CBTCTransaction) : Bool :=
  tx.vin.length == 1 &&
  (tx.vin.head?.elim false fun i => i.prevout.IsNull) &&
  decide (1 ≤ tx.vout.length)

/-- `IsCoinStake` (lines 307-311): at least one input whose prevout is
non-null, at least two outputs, the first output empty. -/
def IsCoinStake (tx : CBTCTransaction) : Bool :=
  decide (0 < tx.vin.length) &&
  (tx.vin.head?.elim false fun i => !i.prevout.IsNull) &&
  decide (2 ≤ tx.vout.length) &&
  (tx.vout.head?.elim false CTxOut.IsEmpty)

/-- `IsCoinBaseOrStake` (lines 313-316). -/
def IsCoinBaseOrStake (tx : CBTCTransaction) : Bool :=
  tx.IsCoinBase || tx.IsCoinStake

end CBTCTransaction

namespace XBridge

/-- `THREAD_COUNT = 2` — a private enum constant of `class XBridge`
(network-runtime header, lines 16-20), fixed at compile time. -/
def THREAD_COUNT : Nat := 2

/-- `TIMER_INTERVAL = 20` — the companion enum constant of `class
XBridge`, fixed at compile time. -/
def TIMER_INTERVAL : Nat := 20

/-- The observable configuration of an `XBridge` instance at construction.
The C++ constructor `XBridge()` takes no parameters, so the runtime that
any construction produces uses the two class constants; the I/O-service
and thread members of the class carry no further configuration. -/
structure Config where
  threadCount : Nat
  timerInterval : Nat
deriving DecidableEq, Repr

/-- Construction of the runtime: the nullary constructor yields the
hard-coded constants as its configuration, whatever the environment
supplies at startup (modelled as an arbitrary unused argument). -/
def construct (_startupInput : Nat) : Config :=
  { threadCount := THREAD_COUNT, timerInterval := TIMER_INTERVAL }

end XBridge

end MainChain

namespace MainChain

open XBridgeTransactionDescr (construct)

/-- The non-strict comparison induced by `operator<` (`le a b` iff not
`b < a`), the form a merge sort consumes when sorting by `operator<`. -/
def XBridgeTransactionDescr.sortLe (a b : XBridgeTransactionDescr) : Bool :=
  !XBridgeTransactionDescr.lt b a

theorem sortLe_trans (a b c : XBridgeTransactionDescr) :
    XBridgeTransactionDescr.sortLe a b → XBridgeTransactionDescr.sortLe b c →
    XBridgeTransactionDescr.sortLe a c := by
  simp [XBridgeTransactionDescr.sortLe, XBridgeTransactionDescr.lt]
  omega

theorem sortLe_total (a b : XBridgeTransactionDescr) :
    XBridgeTransactionDescr.sortLe a b || XBridgeTransactionDescr.sortLe b a := by
  simp [XBridgeTransactionDescr.sortLe, XBridgeTransactionDescr.lt]
  omega

/-- Claim C1: merging two descriptors of the same id (assignment of the
incoming copy `b` onto the existing descriptor `a` via `operator=`, which
delegates to `copyFrom`) yields `created` equal to the minimum of the two
`created` values and sets `txtime` to the merge time; hence `created`
never increases across updates. -/
theorem descr_merge_min_created (a b : XBridgeTransactionDescr) (now : Nat)
    (h : a.id = b.id) :
    (a.assign b false now).created = min a.created b.created ∧
    (a.assign b false now).txtime = now ∧
    (a.assign b false now).created ≤ a.created := by
  refine ⟨?_, rfl, ?_⟩
  · show (if a.created > b.created then b.created else a.created) = _
    split <;> omega
  · show (if a.created > b.created then b.created else a.created) ≤ _
    split <;> omega

/-- Witness for C1 at concrete descriptors (same id 0, created 10 and 5):
the merge keeps created 5 and stamps txtime 42. -/
theorem descr_merge_min_created_witness :
    (construct 10 0 0).id = (construct 5 0 0).id ∧
    (((construct 10 0 0).assign (construct 5 0 0) false 42).created =
        min (construct 10 0 0).created (construct 5 0 0).created ∧
      ((construct 10 0 0).assign (construct 5 0 0) false 42).txtime = 42 ∧
      ((construct 10 0 0).assign (construct 5 0 0) false 42).created ≤
        (construct 10 0 0).created) :=
  ⟨rfl, descr_merge_min_created (construct 10 0 0) (construct 5 0 0) 42 rfl⟩

/-- Counterexample to claim C2 as stated: `copyFrom` never mentions the
`packet` field, so assignment does not overwrite it with the incoming
value.  Merging a descriptor holding no packet with an incoming copy whose
packet is `some 1` leaves the merged packet `none`. -/
theorem descr_merge_packet_not_copied :
    ((construct 0 0 0).assign
        { construct 0 0 0 with packet := some 1 } false 7).packet = none ∧
    ((construct 0 0 0).assign
        { construct 0 0 0 with packet := some 1 } false 7).packet ≠ some 1 := by
  decide

/-- Claim C2 (amended): assignment from a distinct incoming copy overwrites
`id`, both addresses, both legs' currencies and amounts, `state`,
`payTxId`, `payTx` and `revTx` with the incoming values, while `packet`
keeps the existing descriptor's value (and `created`/`txtime` follow the
merge rule of C1). -/
theorem descr_merge_overwrites_except_packet
    (a b : XBridgeTransactionDescr) (now : Nat) :
    (a.assign b false now).id = b.id ∧
    (a.assign b false now).hubAddress = b.hubAddress ∧
    (a.assign b false now).myAddress = b.myAddress ∧
    (a.assign b false now).fromAddr = b.fromAddr ∧
    (a.assign b false now).fromCurrency = b.fromCurrency ∧
    (a.assign b false now).fromAmount = b.fromAmount ∧
    (a.assign b false now).toAddr = b.toAddr ∧
    (a.assign b false now).toCurrency = b.toCurrency ∧
    (a.assign b false now).toAmount = b.toAmount ∧
    (a.assign b false now).state = b.state ∧
    (a.assign b false now).payTxId = b.payTxId ∧
    (a.assign b false now).payTx = b.payTx ∧
    (a.assign b false now).revTx = b.revTx ∧
    (a.assign b false now).packet = a.packet :=
  ⟨rfl, rfl, rfl, rfl, rfl, rfl, rfl, rfl, rfl, rfl, rfl, rfl, rfl, rfl⟩

/-- Claim C3: descriptor comparison is strictly by `created` ascending
(`a < b` iff `a.created < b.created`, `a > b` iff `a.created > b.created`),
is a strict weak ordering (irreflexive, asymmetric, transitive, with
transitive incomparability), and sorting by it is stable under repeated
sorts (re-sorting an already sorted list is the identity). -/
theorem descr_order_strict_weak (a b c : XBridgeTransactionDescr)
    (l : List XBridgeTransactionDescr) :
    (a.lt b = true ↔ a.created < b.created) ∧
    (a.gt b = true ↔ a.created > b.created) ∧
    a.lt a = false ∧
    (a.lt b && b.lt a) = false ∧
    (a.lt b = true → b.lt c = true → a.lt c = true) ∧
    ((a.lt b = false ∧ b.lt a = false) → (b.lt c = false ∧ c.lt b = false) →
      (a.lt c = false ∧ c.lt a = false)) ∧
    (l.mergeSort XBridgeTransactionDescr.sortLe).mergeSort
        XBridgeTransactionDescr.sortLe =
      l.mergeSort XBridgeTransactionDescr.sortLe := by
  refine ⟨?_, ?_, ?_, ?_, ?_, ?_,
    List.mergeSort_of_sorted
      (List.sorted_mergeSort sortLe_trans sortLe_total l)⟩ <;>
    simp [XBridgeTransactionDescr.lt, XBridgeTransactionDescr.gt] <;> omega


/-- Claim C4: the `state` field ranges over exactly 13 values, enumerated
in the source order New, Pending, Accepting, Hold, Created, Signed,
Committed, Finished, Rollback, Dropped, Cancelled, Invalid, Expired
(numeric values 0 through 12), and a freshly constructed descriptor has
state New. -/
theorem descr_state_enum :
    State.enumList.map State.toNat = List.range 13 ∧
    State.enumList.length = 13 ∧
    State.enumList.Nodup ∧
    (∀ s : State, s ∈ State.enumList) ∧
    (∀ now a0 b0, (construct now a0 b0).state = State.trNew) := by
  refine ⟨by decide, by decide, by decide, ?_, fun _ _ _ => rfl⟩
  intro s
  cases s <;> simp [State.enumList]

/-- Claim C5: a swap member is complete iff both its source and its
destination address are non-empty: `isEmpty` returns true exactly when the
source or the destination address is empty, for any values set through
`setSource`/`setDest`. -/
theorem member_isEmpty_iff (m : XBridgeTransactionMember)
    (s d : List Nat) :
    (((m.setSource s).setDest d).isEmpty = true ↔ s = [] ∨ d = []) ∧
    (((m.setSource s).setDest d).isEmpty = false ↔ s ≠ [] ∧ d ≠ []) ∧
    ((m.setSource s).setDest d).source = s ∧
    ((m.setSource s).setDest d).dest = d ∧
    (m.isEmpty = true ↔ m.m_sourceAddr = [] ∨ m.m_destAddr = []) := by
  refine ⟨?_, ?_, rfl, rfl, ?_⟩ <;>
    simp [XBridgeTransactionMember.isEmpty, XBridgeTransactionMember.setSource,
      XBridgeTransactionMember.setDest, List.isEmpty_iff]

/-- Claim C6: the fixed-point scaling constant `COIN` is 1,000,000 units
per whole coin and the minimum-fee floor `MIN_TX_FEE` is 100 units, as
exact integer constants of the descriptor type. -/
theorem descr_fee_constants :
    XBridgeTransactionDescr.COIN = 1000000 ∧
    XBridgeTransactionDescr.MIN_TX_FEE = 100 := by
  decide

/-- Claim C7: `DoS(n, f)` adds exactly `n` to the stored counter, returns
`f` unchanged, and modifies no other field of the transaction; `SetNull`
resets the counter to 0. -/
theorem dos_counter_accumulates (tx : CBTCTransaction) (n : Int) (f : Bool)
    (now : Nat) :
    (tx.DoS n f).1.nDoS = tx.nDoS + n ∧
    (tx.DoS n f).2 = f ∧
    (tx.DoS n f).1.nVersion = tx.nVersion ∧
    (tx.DoS n f).1.nTime = tx.nTime ∧
    (tx.DoS n f).1.vin = tx.vin ∧
    (tx.DoS n f).1.vout = tx.vout ∧
    (tx.DoS n f).1.nLockTime = tx.nLockTime ∧
    (tx.SetNull now).nDoS = 0 :=
  ⟨rfl, rfl, rfl, rfl, rfl, rfl, rfl, rfl⟩

/-- Counterexample to claim C8 as stated: the worker-thread count and the
timer interval are not externally supplied at startup — construction takes
no configuration, yields the same values for any startup input, and those
values are the hard-coded enum constants 2 and 20. -/
theorem xbridge_constants_hardcoded_cex :
    XBridge.construct 0 = XBridge.construct 1 ∧
    (XBridge.construct 0).threadCount = 2 ∧
    (XBridge.construct 0).timerInterval = 20 := by
  decide

/-- Claim C8 (amended): the worker-thread count and timer interval are
hard-coded compile-time enum constants of the `XBridge` class
(`THREAD_COUNT = 2`, `TIMER_INTERVAL = 20`); every constructed runtime
observes these constants regardless of what is supplied at startup. -/
theorem xbridge_constants_hardcoded (startupInput : Nat) :
    (XBridge.construct startupInput).threadCount = XBridge.THREAD_COUNT ∧
    (XBridge.construct startupInput).timerInterval = XBridge.TIMER_INTERVAL ∧
    XBridge.THREAD_COUNT = 2 ∧
    XBridge.TIMER_INTERVAL = 20 :=
  ⟨rfl, rfl, rfl, rfl⟩

/-- Claim C9: self-assignment (`operator=` with `this == &d`) is a
complete no-op — every field, `txtime` included, is left unchanged —
whereas assignment from a distinct descriptor always refreshes `txtime`
to the current time. -/
theorem descr_self_assign_noop (d e : XBridgeTransactionDescr) (now : Nat) :
    d.assign d true now = d ∧
    (d.assign e false now).txtime = now :=
  ⟨rfl, rfl⟩

/-- Claim C10: `IsCoinBase` and `IsCoinStake` are mutually exclusive
(coin-base requires the first input's prevout null, coin-stake requires it
non-null), so `IsCoinBaseOrStake` is their disjoint union. -/
theorem coinbase_coinstake_disjoint (tx : CBTCTransaction) :
    (tx.IsCoinBase && tx.IsCoinStake) = false ∧
    tx.IsCoinBaseOrStake = (tx.IsCoinBase || tx.IsCoinStake) ∧
    (tx.IsCoinBaseOrStake = true ↔
      tx.IsCoinBase = true ∨ tx.IsCoinStake = true) := by
  refine ⟨?_, rfl, by simp [CBTCTransaction.IsCoinBaseOrStake]⟩
  cases hv : tx.vin with
  | nil => simp [CBTCTransaction.IsCoinBase, hv]
  | cons i rest =>
    cases hn : i.prevout.IsNull <;>
      simp [CBTCTransaction.IsCoinBase, CBTCTransaction.IsCoinStake, hv, hn]

end MainChain
